import Mathlib

/-!
Shallow embedding of `src/backends/xnnpack/runtime/XNNPACKBackend.cpp`
(the XNNPACK delegate backend adapter of executorch).

The adapter's observable behaviour is modelled by pure functions that
return, next to the C++ return value, the adapter state after the call
and a trace of the externally visible events the call performed
(allocation, placement construction, the compile call, releasing the
processed payload, running the handle's destructor, ...).  External
collaborators whose code is not in `src/` (the XNNPACK library calls,
`XNNCompiler::compileModel`, the allocation macro, `register_backend`)
are modelled by an environment record carrying their outcomes; their
definitions carry a `Modelled from the spec:` doc comment.
-/

namespace XnnpackDelegate

/-- Error kinds of `executorch::runtime::Error` that this file needs:
`Ok`, `Internal` (workspace missing, allocator exhausted) and a few
distinct kinds that `XNNCompiler::compileModel` or the executor
sub-steps may surface. -/
inductive Error where
  | Ok
  | Internal
  | InvalidArgument
  | InvalidProgram
  | NotSupported
  deriving DecidableEq, Repr

/-- Pointer identity of an `xnn_workspace_t`; `Option Workspace` stands
for a possibly-null `xnn_workspace_t` pointer. -/
abbrev Workspace := Nat

/-- Externally visible events performed by the adapter's member
functions, in the order they happen. -/
inductive Event where
  | allocExecutor
  | constructExecutor
  | xnnInitCall
  | compileModelCall
  | freeProcessed
  | destructExecutor
  | freeHandleStorage
  | destroyWorkspace
  deriving DecidableEq, Repr

/-- Outcomes of the external collaborators during one call:
whether `xnn_initialize` succeeds, whether `xnn_create_workspace`
succeeds, whether the runtime allocator can provide storage for an
`XNNExecutor`, and the error `XNNCompiler::compileModel` returns. -/
structure XNNEnv where
  xnnInitOk : Bool
  xnnCreateWorkspaceOk : Bool
  allocOk : Bool
  compileResult : Error
  deriving DecidableEq, Repr

/-- The `XnnpackBackend` class state: its single data member
`xnn_workspace_t workspace_` (line 137). -/
structure XnnpackBackend where
  workspace_ : Option Workspace
  deriving DecidableEq, Repr

/-- The `XNNExecutor` handle as far as this file observes it: after
`compileModel` populated it, it is bound to the workspace it was given.
The runnable plan and argument buffers are opaque to the adapter. -/
structure XNNExecutor where
  workspace : Option Workspace
  deriving DecidableEq, Repr

/-- Modelled from the spec: `XNNCompiler::compileModel` (its definition
is not under `src/`; only its call site is) parses the processed payload
and populates the executor, binding it to the workspace it receives; it
may fail with an error.  The error returned is the environment's
`compileResult`. -/
def compileModel (env : XNNEnv) (ws : Option Workspace) : Error × XNNExecutor :=
  (env.compileResult, { workspace := ws })

/-- The `XnnpackBackend` constructor (lines 25-48): call
`xnn_initialize`; on failure return early (leaving `workspace_` with
its indeterminate pre-constructor value, passed in as `indet` since the
member has no initializer); otherwise call `xnn_create_workspace`; on
failure set `workspace_` to null and return; on success store the fresh
workspace. -/
def XnnpackBackend.construct (env : XNNEnv) (indet : Option Workspace)
    (fresh : Workspace) : XnnpackBackend :=
  if env.xnnInitOk = false then
    { workspace_ := indet }
  else if env.xnnCreateWorkspaceOk = false then
    { workspace_ := none }
  else
    { workspace_ := some fresh }

deriving instance DecidableEq for Except

/-- Result of `XnnpackBackend::init`: the `Result<DelegateHandle*>`
return value, the adapter state after the call, and the event trace. -/
structure InitOutcome where
  result : Except Error XNNExecutor
  adapter : XnnpackBackend
  events : List Event
  deriving DecidableEq, Repr

/-- `XnnpackBackend::init` (lines 54-88): allocate storage for an
`XNNExecutor` from the runtime allocator (on exhaustion return an error
without further work; modelled from the spec: the allocation macro is
not under `src/`, and the spec's error taxonomy files allocator
exhaustion under `Internal`); placement-construct the executor; check
`workspace_ != nullptr`, returning `Internal` on failure; call
`XNNCompiler::compileModel`; call `processed->Free()`; if compilation
failed, run the executor's destructor manually and return the error;
otherwise return the executor as the handle. -/
def XnnpackBackend.init (a : XnnpackBackend) (env : XNNEnv) : InitOutcome :=
  if env.allocOk = false then
    { result := .error .Internal, adapter := a, events := [] }
  else
    match a.workspace_ with
    | none =>
        { result := .error .Internal, adapter := a
          events := [.allocExecutor, .constructExecutor] }
    | some ws =>
        let compiled := compileModel env (some ws)
        if compiled.1 ≠ Error.Ok then
          { result := .error compiled.1, adapter := a
            events := [.allocExecutor, .constructExecutor, .compileModelCall,
                       .freeProcessed, .destructExecutor] }
        else
          { result := .ok compiled.2, adapter := a
            events := [.allocExecutor, .constructExecutor, .compileModelCall,
                       .freeProcessed] }

/-- Outcomes of the executor's three sub-steps during one `execute`
call; the executor's member functions are external to this file. -/
structure ExecEnv where
  prepareResult : Error
  forwardResult : Error
  resizeResult : Error
  deriving DecidableEq, Repr

/-- The three sub-steps of `execute`, named after the `XNNExecutor`
member functions they invoke. -/
inductive ExecStep where
  | prepare_args
  | forward
  | resize_outputs
  deriving DecidableEq, Repr

/-- Result of `XnnpackBackend::execute`: the returned `Error`, the
adapter state after the call, and the sub-steps that actually ran, in
order. -/
structure ExecOutcome where
  result : Error
  adapter : XnnpackBackend
  steps : List ExecStep
  deriving DecidableEq, Repr

/-- `XnnpackBackend::execute` (lines 90-112): run
`executor->prepare_args(args)`, returning its error if it failed; run
`executor->forward(context)`, returning its error if it failed; run
`executor->resize_outputs(args)` and return whatever it returns. -/
def XnnpackBackend.execute (a : XnnpackBackend) (env : ExecEnv) : ExecOutcome :=
  if env.prepareResult ≠ Error.Ok then
    { result := env.prepareResult, adapter := a, steps := [.prepare_args] }
  else if env.forwardResult ≠ Error.Ok then
    { result := env.forwardResult, adapter := a, steps := [.prepare_args, .forward] }
  else
    { result := env.resizeResult, adapter := a
      steps := [.prepare_args, .forward, .resize_outputs] }

/-- Result of `XnnpackBackend::destroy`: the adapter state after the
call and the event trace. -/
structure DestroyOutcome where
  adapter : XnnpackBackend
  events : List Event
  deriving DecidableEq, Repr

/-- `XnnpackBackend::destroy` (lines 114-124): with a null handle, do
nothing; otherwise run the handle's `~XNNExecutor()` destructor.  No
event frees the handle's backing storage. -/
def XnnpackBackend.destroy (a : XnnpackBackend) (handle : Option XNNExecutor) :
    DestroyOutcome :=
  match handle with
  | none => { adapter := a, events := [] }
  | some _ => { adapter := a, events := [.destructExecutor] }

/-- `XnnpackBackend::is_available` (lines 50-52): re-attempt
`xnn_initialize(nullptr)` and report whether it succeeded.  The adapter
state (in particular `workspace_`) is not consulted.  Returns the
boolean together with the event trace of the call. -/
def XnnpackBackend.is_available (_a : XnnpackBackend) (env : XNNEnv) :
    Bool × List Event :=
  (env.xnnInitOk, [.xnnInitCall])

/-- The `Backend` registration record (line 144): a name string bound
to the adapter instance. -/
structure Backend where
  name : String
  impl : XnnpackBackend
  deriving DecidableEq, Repr

/-- Static-initialization events at process/module load time. -/
inductive LoadEvent where
  | constructAdapter
  | constructRecord
  | registerCall (nm : String)
  deriving DecidableEq, Repr

/-- The static `auto cls = XnnpackBackend();` instance (line 143). -/
def cls (env : XNNEnv) (indet : Option Workspace) (fresh : Workspace) :
    XnnpackBackend :=
  XnnpackBackend.construct env indet fresh

/-- The static `Backend backend{"XnnpackBackend", &cls};` record
(line 144). -/
def backendRecord (env : XNNEnv) (indet : Option Workspace) (fresh : Workspace) :
    Backend :=
  { name := "XnnpackBackend", impl := cls env indet fresh }

/-- The static-initializer sequence of the anonymous namespace
(lines 142-146): construct the one adapter instance `cls`, construct
the one registration record `backend`, and call
`register_backend(backend)` once with the record's fixed name
(`register_backend` itself is host code outside `src/`). -/
def loadSequence : List LoadEvent :=
  [LoadEvent.constructAdapter, LoadEvent.constructRecord,
   LoadEvent.registerCall "XnnpackBackend"]

/-! Helper lemmas shared by the claim theorems. -/

/-- The adapter state is unchanged by `init` (a `const` member function
that never assigns `workspace_`). -/
lemma init_adapter_eq (a : XnnpackBackend) (env : XNNEnv) :
    (a.init env).adapter = a := by
  unfold XnnpackBackend.init
  rcases a with ⟨_ | ws⟩ <;> cases hA : env.allocOk <;> simp [hA] <;> split <;> rfl

/-- The adapter state is unchanged by `execute`. -/
lemma execute_adapter_eq (a : XnnpackBackend) (env : ExecEnv) :
    (a.execute env).adapter = a := by
  unfold XnnpackBackend.execute
  split <;> [rfl; split <;> rfl]

/-- The adapter state is unchanged by `destroy`. -/
lemma destroy_adapter_eq (a : XnnpackBackend) (h : Option XNNExecutor) :
    (a.destroy h).adapter = a := by
  cases h <;> rfl

/-- Event trace of `init` on an adapter whose workspace is null. -/
lemma init_none_events (env : XNNEnv) :
    (XnnpackBackend.init ⟨none⟩ env).events =
      if env.allocOk = false then [] else [.allocExecutor, .constructExecutor] := by
  unfold XnnpackBackend.init
  cases hA : env.allocOk <;> simp [hA]

/-- Result of `init` on an adapter whose workspace is null. -/
lemma init_none_result (env : XNNEnv) :
    (XnnpackBackend.init ⟨none⟩ env).result = Except.error Error.Internal := by
  unfold XnnpackBackend.init
  cases hA : env.allocOk <;> simp [hA]

/-- A handle returned by a successful `init` is bound to the adapter's
workspace (the workspace `init` passed to `compileModel`). -/
lemma init_ok_workspace (a : XnnpackBackend) (env : XNNEnv) (ex : XNNExecutor)
    (hok : (a.init env).result = Except.ok ex) : ex.workspace = a.workspace_ := by
  unfold XnnpackBackend.init compileModel at hok
  rcases a with ⟨_ | ws⟩ <;> cases hA : env.allocOk <;> simp [hA] at hok
  split at hok
  · simp at hok
    rw [← hok]
  · exact absurd hok (by simp)

/-- No `init` call destroys the shared workspace. -/
lemma init_no_workspace_destroy (a : XnnpackBackend) (env : XNNEnv) :
    (a.init env).events.count Event.destroyWorkspace = 0 := by
  unfold XnnpackBackend.init
  rcases a with ⟨_ | ws⟩ <;> cases hA : env.allocOk <;> simp [hA] <;> split <;> rfl

/-- No `destroy` call destroys the shared workspace. -/
lemma destroy_no_workspace_destroy (a : XnnpackBackend) (h : Option XNNExecutor) :
    (a.destroy h).events.count Event.destroyWorkspace = 0 := by
  cases h <;> rfl

/-! Claim theorems. -/

/-- C1, counterexample: with a null workspace (and a live allocator),
`init` fails after placement construction but before the `Free` call,
so the processed payload is not released at all on that path — the
claim that every path releases it exactly once is false. -/
theorem C1_counterexample_free_skipped :
    ¬ ((XnnpackBackend.init ⟨none⟩ ⟨true, true, true, Error.Ok⟩).events.count
        Event.freeProcessed = 1) := by
  decide

/-- C1, amended: `processed->Free()` runs exactly once on every path
that reaches the compile step (success and compiler failure), and zero
times on the paths that return before it (allocation failure and
workspace-absent failure); it never runs more than once per `init`. -/
theorem C1_amended_free_count (a : XnnpackBackend) (env : XNNEnv) :
    (a.init env).events.count Event.freeProcessed =
      if env.allocOk = true ∧ a.workspace_ ≠ none then 1 else 0 := by
  unfold XnnpackBackend.init
  rcases a with ⟨_ | ws⟩ <;> cases hA : env.allocOk <;>
    simp [hA, List.count_cons] <;> split <;> simp [List.count_cons]

/-- C2: at the failing input — adapter whose workspace is null (as
after construction-time workspace-creation failure), allocator live —
`init` placement-constructs the handle (one construction event), then
fails the workspace check and returns `Internal` without ever invoking
the handle's destructor (zero destruction events), contradicting the
claim that each failure after construction destroys the handle exactly
once. -/
theorem C2_destructor_skipped_at_failing_input :
    (XnnpackBackend.init ⟨none⟩ ⟨true, true, true, Error.Ok⟩).events.count
        Event.constructExecutor = 1 ∧
    (XnnpackBackend.init ⟨none⟩ ⟨true, true, true, Error.Ok⟩).events.count
        Event.destructExecutor = 0 ∧
    (XnnpackBackend.init ⟨none⟩ ⟨true, true, true, Error.Ok⟩).result =
      Except.error Error.Internal := by
  decide

/-- C3: on an adapter whose shared workspace is null, `init` always
fails with the `Internal` error kind and `XNNCompiler::compileModel` is
never invoked. -/
theorem C3_null_workspace_internal_no_compile (a : XnnpackBackend)
    (env : XNNEnv) (hws : a.workspace_ = none) :
    (a.init env).result = Except.error Error.Internal ∧
    (a.init env).events.count Event.compileModelCall = 0 := by
  rcases a with ⟨ws⟩
  cases hws
  refine ⟨init_none_result env, ?_⟩
  rw [init_none_events env]
  split <;> decide

/-- C3 witness: concrete adapter with null workspace, concrete
environment. -/
theorem C3_witness :
    (⟨none⟩ : XnnpackBackend).workspace_ = none ∧
    ((XnnpackBackend.init ⟨none⟩ ⟨true, true, true, Error.Ok⟩).result =
        Except.error Error.Internal ∧
      (XnnpackBackend.init ⟨none⟩ ⟨true, true, true, Error.Ok⟩).events.count
        Event.compileModelCall = 0) :=
  ⟨rfl, C3_null_workspace_internal_no_compile ⟨none⟩ ⟨true, true, true, Error.Ok⟩ rfl⟩

/-- C4: if `xnn_create_workspace` fails during adapter construction,
the adapter's workspace is null, and on every later environment `init`
fails with `Internal` and leaves the workspace null (no lazy
recreation), so `init` never succeeds on such an adapter. -/
theorem C4_degraded_forever (env : XNNEnv) (indet : Option Workspace)
    (fresh : Workspace) (h1 : env.xnnInitOk = true)
    (h2 : env.xnnCreateWorkspaceOk = false) :
    (XnnpackBackend.construct env indet fresh).workspace_ = none ∧
    ∀ env2 : XNNEnv,
      ((XnnpackBackend.construct env indet fresh).init env2).result =
        Except.error Error.Internal ∧
      ((XnnpackBackend.construct env indet fresh).init env2).adapter.workspace_ =
        none := by
  have hc : XnnpackBackend.construct env indet fresh = ⟨none⟩ := by
    unfold XnnpackBackend.construct
    simp [h1, h2]
  rw [hc]
  exact ⟨rfl, fun env2 => ⟨init_none_result env2, by rw [init_adapter_eq]⟩⟩

/-- C4 witness: concrete construction environment whose workspace
creation fails. -/
theorem C4_witness :
    (⟨true, false, true, Error.Ok⟩ : XNNEnv).xnnInitOk = true ∧
    (⟨true, false, true, Error.Ok⟩ : XNNEnv).xnnCreateWorkspaceOk = false ∧
    ((XnnpackBackend.construct ⟨true, false, true, Error.Ok⟩ (some 3) 7).workspace_ =
        none ∧
      ∀ env2 : XNNEnv,
        ((XnnpackBackend.construct ⟨true, false, true, Error.Ok⟩ (some 3) 7).init
            env2).result = Except.error Error.Internal ∧
        ((XnnpackBackend.construct ⟨true, false, true, Error.Ok⟩ (some 3) 7).init
            env2).adapter.workspace_ = none) :=
  ⟨rfl, rfl, C4_degraded_forever ⟨true, false, true, Error.Ok⟩ (some 3) 7 rfl rfl⟩

/-- C5: `execute` runs its three sub-steps in order with
short-circuiting: a failing `prepare_args` is returned verbatim with
`forward` and `resize_outputs` never invoked; a failing `forward` is
returned verbatim with `resize_outputs` never invoked; when both
succeed, all three sub-steps run and `execute` returns the result of
`resize_outputs`. -/
theorem C5_execute_short_circuit (a : XnnpackBackend) (env : ExecEnv) :
    (env.prepareResult ≠ Error.Ok →
      (a.execute env).result = env.prepareResult ∧
      (a.execute env).steps = [ExecStep.prepare_args]) ∧
    (env.prepareResult = Error.Ok → env.forwardResult ≠ Error.Ok →
      (a.execute env).result = env.forwardResult ∧
      (a.execute env).steps = [ExecStep.prepare_args, ExecStep.forward]) ∧
    (env.prepareResult = Error.Ok → env.forwardResult = Error.Ok →
      (a.execute env).result = env.resizeResult ∧
      (a.execute env).steps =
        [ExecStep.prepare_args, ExecStep.forward, ExecStep.resize_outputs]) := by
  unfold XnnpackBackend.execute
  refine ⟨fun h1 => ?_, fun h1 h2 => ?_, fun h1 h2 => ?_⟩
  · simp [h1]
  · simp [h1, h2]
  · simp [h1, h2]

/-- C5 witness: all sub-steps succeed except the last, whose result is
returned. -/
theorem C5_witness :
    ((XnnpackBackend.execute ⟨some 5⟩
          ⟨Error.Ok, Error.Ok, Error.InvalidArgument⟩).result =
        Error.InvalidArgument ∧
      (XnnpackBackend.execute ⟨some 5⟩
          ⟨Error.Ok, Error.Ok, Error.InvalidArgument⟩).steps =
        [ExecStep.prepare_args, ExecStep.forward, ExecStep.resize_outputs]) :=
  (C5_execute_short_circuit ⟨some 5⟩
      ⟨Error.Ok, Error.Ok, Error.InvalidArgument⟩).2.2 rfl rfl

/-- C6: `destroy` with a null handle performs no event and leaves the
adapter unchanged (a total no-op); with a non-null handle it runs the
handle's destructor exactly once and never frees the handle's backing
storage. -/
theorem C6_destroy_null_noop_nonnull_once (a : XnnpackBackend)
    (ex : XNNExecutor) :
    (a.destroy none).events = [] ∧
    (a.destroy none).adapter = a ∧
    (a.destroy (some ex)).events.count Event.destructExecutor = 1 ∧
    (a.destroy (some ex)).events.count Event.freeHandleStorage = 0 ∧
    (a.destroy (some ex)).adapter = a := by
  refine ⟨rfl, rfl, ?_, ?_, rfl⟩ <;> simp [XnnpackBackend.destroy]

/-- C7: whenever the numeric-kernel library's `xnn_initialize` fails in
the current environment, `is_available` returns `false`; it is a total
function (it always returns a boolean, never faulting). -/
theorem C7_is_available_false_on_failure (a : XnnpackBackend) (env : XNNEnv)
    (h : env.xnnInitOk = false) :
    (a.is_available env).1 = false := by
  simp [XnnpackBackend.is_available, h]

/-- C7 witness: concrete environment in which the library fails to
come up. -/
theorem C7_witness :
    (⟨false, true, true, Error.Ok⟩ : XNNEnv).xnnInitOk = false ∧
    (XnnpackBackend.is_available ⟨some 1⟩ ⟨false, true, true, Error.Ok⟩).1 =
      false :=
  ⟨rfl, C7_is_available_false_on_failure ⟨some 1⟩ ⟨false, true, true, Error.Ok⟩ rfl⟩

/-- C8: the static-initializer sequence at load time constructs exactly
one adapter instance and exactly one registration record, performs
exactly one registration call — under the fixed name
"XnnpackBackend" — and does nothing else; the registration record binds
that fixed name to the single adapter instance. -/
theorem C8_single_load_time_registration (env : XNNEnv)
    (indet : Option Workspace) (fresh : Workspace) :
    loadSequence.count LoadEvent.constructAdapter = 1 ∧
    loadSequence.count LoadEvent.constructRecord = 1 ∧
    loadSequence.count (LoadEvent.registerCall "XnnpackBackend") = 1 ∧
    loadSequence.length = 3 ∧
    (backendRecord env indet fresh).name = "XnnpackBackend" ∧
    (backendRecord env indet fresh).impl = cls env indet fresh := by
  refine ⟨by decide, by decide, by decide, rfl, rfl, rfl⟩

/-- C9: `init`, `execute` and `destroy` all leave the adapter — in
particular its `workspace_` field — unchanged; every handle a
successful `init` returns is bound to that adapter's single workspace;
and no call ever destroys the workspace. -/
theorem C9_workspace_frame (a : XnnpackBackend) (env : XNNEnv)
    (eenv : ExecEnv) (h : Option XNNExecutor) (ex : XNNExecutor) :
    (a.init env).adapter = a ∧
    (a.execute eenv).adapter = a ∧
    (a.destroy h).adapter = a ∧
    ((a.init env).result = Except.ok ex → ex.workspace = a.workspace_) ∧
    (a.init env).events.count Event.destroyWorkspace = 0 ∧
    (a.destroy h).events.count Event.destroyWorkspace = 0 := by
  exact ⟨init_adapter_eq a env, execute_adapter_eq a eenv,
    destroy_adapter_eq a h, init_ok_workspace a env ex,
    init_no_workspace_destroy a env, destroy_no_workspace_destroy a h⟩

/-- C9 witness: a successful concrete `init` whose returned handle is
bound to the adapter's workspace. -/
theorem C9_witness :
    (XnnpackBackend.init ⟨some 5⟩ ⟨true, true, true, Error.Ok⟩).result =
      Except.ok ⟨some 5⟩ ∧
    (⟨some 5⟩ : XNNExecutor).workspace = (⟨some 5⟩ : XnnpackBackend).workspace_ :=
  ⟨by decide,
    (C9_workspace_frame ⟨some 5⟩ ⟨true, true, true, Error.Ok⟩
        ⟨Error.Ok, Error.Ok, Error.Ok⟩ none ⟨some 5⟩).2.2.2.1 (by decide)⟩

/-- C10: `is_available` never consults the adapter state (any two
adapters agree in every environment), re-attempts the library
initialization call on every invocation, and there is an adapter state
— null workspace with a working library — in which `is_available`
reports `true` while every `init` call on that adapter fails. -/
theorem C10_is_available_ignores_workspace :
    (∀ (a b : XnnpackBackend) (env : XNNEnv),
      a.is_available env = b.is_available env) ∧
    (∀ (a : XnnpackBackend) (env : XNNEnv),
      (a.is_available env).2.count Event.xnnInitCall = 1) ∧
    (XnnpackBackend.is_available ⟨none⟩ ⟨true, true, true, Error.Ok⟩).1 = true ∧
    (∀ env2 : XNNEnv,
      (XnnpackBackend.init ⟨none⟩ env2).result = Except.error Error.Internal) :=
  ⟨fun _ _ _ => rfl, fun _ _ => rfl, rfl, fun env2 => init_none_result env2⟩

end XnnpackDelegate
